import Mathlib

/-!
Shallow embedding of radiant-cpp's `radiant/UniquePtr.h` (the mature revision:
allocator-backed `DefaultDelete`, `UniquePtr`, and the allocator-aware
`make_unique` helper, as found in src/unnamed/part_001).

Addresses are modelled as `Option Nat` (`none` = the null pointer).  Side
effects of the destruction policy (the allocator-trait `Destroy` and `Free`
primitives) are recorded in an explicit event trace, so that "the policy is
never invoked" is the statement that an operation's trace is empty.  Object
identity (the `this != &o` self-assignment check and self-swap aliasing) is
modelled by running the operations on a store `Nat → UniquePtr D` indexed by
object identity.
-/

namespace rad

/-- An observable effect of invoking the destruction policy: a call to the
allocator-trait `Destroy` primitive or to the allocator-trait `Free`
primitive, tagged with the state of the allocator instance that performed
it, the address operated on and (for `Free`) the unit count. -/
inductive Event where
  | destroy (allocState : Nat) (addr : Nat)
  | free (allocState : Nat) (addr : Nat) (count : Nat)
deriving DecidableEq, Repr

/-- Modelled from the spec: `StdAllocator` comes from `radiant/Memory.h`,
which is not part of the sources here.  The spec treats allocators as
instances with identity ("the same allocator instance that performed the
original allocation"; a policy "must hold its own allocator instance
value"), so the model gives an allocator instance an observable state. -/
structure StdAllocator where
  state : Nat
deriving DecidableEq, Repr

/-- The default-constructed `StdAllocator` (what `A alloc;` and an empty
member-initializer list produce). -/
def defaultStdAllocator : StdAllocator := { state := 0 }

/-- `DefaultDelete<T>` from src/unnamed/part_001 lines 24-52: it derives
privately from `StdAllocator`, i.e. it holds its allocator instance by value
as its own state. -/
structure DefaultDelete where
  allocator : StdAllocator
deriving DecidableEq, Repr

/-- `DefaultDelete::DefaultDelete()`: default-constructs the allocator. -/
def DefaultDelete.defaultCtor : DefaultDelete :=
  { allocator := defaultStdAllocator }

/-- `DefaultDelete::DefaultDelete(const allocator_type& a)`: stores the given
allocator instance by value. -/
def DefaultDelete.ofAllocator (a : StdAllocator) : DefaultDelete :=
  { allocator := a }

/-- `DefaultDelete::get_allocator()`: returns the held allocator instance
(the private base subobject). -/
def DefaultDelete.get_allocator (d : DefaultDelete) : StdAllocator :=
  d.allocator

/-- The converting deleter constructor, src/unnamed/part_001 lines 37-40:
`constexpr DefaultDelete(const DefaultDelete<U>&) noexcept {}`.
Its member-initializer list is empty, so the `StdAllocator` base is
default-constructed and the source deleter's allocator is ignored. -/
def DefaultDelete.convertFrom (_src : DefaultDelete) : DefaultDelete :=
  { allocator := defaultStdAllocator }

/-- `DefaultDelete::operator()(pointer p)`, src/unnamed/part_001 lines 42-48:
`if (!p) return;` then `Traits::Destroy(alloc, p); Traits::Free(alloc, p, 1);`
with `alloc = get_allocator()`.  The two allocator-trait calls are recorded
as events. -/
def DefaultDelete.call (d : DefaultDelete) (p : Option Nat) : List Event :=
  match p with
  | none => []
  | some a =>
      let alloc := d.get_allocator
      [Event.destroy alloc.state a, Event.free alloc.state a 1]

/-- `UniquePtr<T, Deleter>`: the deleter (a private base subobject in the
source) together with the raw pointer `m_ptr` (`none` = nullptr). -/
structure UniquePtr (D : Type) where
  deleter : D
  m_ptr : Option Nat
deriving DecidableEq, Repr

/-- `UniquePtr::get()`: the stored pointer. -/
def UniquePtr.get {D : Type} (u : UniquePtr D) : Option Nat :=
  u.m_ptr

/-- `UniquePtr::operator bool()`: `m_ptr != nullptr`. -/
def UniquePtr.opBool {D : Type} (u : UniquePtr D) : Bool :=
  u.m_ptr.isSome

/-- `UniquePtr::get_deleter()`: the stored deleter. -/
def UniquePtr.get_deleter {D : Type} (u : UniquePtr D) : D :=
  u.deleter

/-- `UniquePtr::release()`, src/unnamed/part_001 lines 124-128:
`tmp = m_ptr; m_ptr = nullptr; return tmp`.  The body contains no deleter
invocation, so the trace is empty. -/
def UniquePtr.release {D : Type} (u : UniquePtr D) :
    Option Nat × UniquePtr D × List Event :=
  (u.m_ptr, { deleter := u.deleter, m_ptr := none }, [])

/-- `UniquePtr::reset(pointer p = nullptr)`, src/unnamed/part_001
lines 131-134: `if (m_ptr) deleter(m_ptr); m_ptr = p;`.  `invoke` is the
deleter's `operator()` on a non-null pointer. -/
def UniquePtr.reset {D : Type} (invoke : D → Nat → List Event)
    (p : Option Nat) (u : UniquePtr D) : UniquePtr D × List Event :=
  match u.m_ptr with
  | some a => ({ deleter := u.deleter, m_ptr := p }, invoke u.deleter a)
  | none => ({ deleter := u.deleter, m_ptr := p }, [])

/-- The move constructor `UniquePtr(UniquePtr&& o)`, src/unnamed/part_001
lines 72-75: `Deleter(rad::Move(o.get_deleter())), m_ptr(o.release())`.
The deleter value is transferred from the source and the pointer is stolen
through the source's own `release`; no deleter invocation occurs.
Returns (new owner, source after the move, trace). -/
def UniquePtr.moveConstruct {D : Type} (o : UniquePtr D) :
    UniquePtr D × UniquePtr D × List Event :=
  let r := o.release
  ({ deleter := o.deleter, m_ptr := r.1 }, r.2.1, r.2.2)

/-- The converting move constructor
`template <U, E> UniquePtr(UniquePtr<U,E>&& o)`, src/unnamed/part_001
lines 77-82, instantiated at `Deleter = DefaultDelete<T>`,
`E = DefaultDelete<U>`: `Deleter(rad::Move(o.get_deleter()))` resolves to the
converting deleter constructor `DefaultDelete.convertFrom`, and
`m_ptr(o.release())` steals the address through the source's own `release`.
Returns (new owner, source after the move). -/
def UniquePtr.convertingMoveConstruct (o : UniquePtr DefaultDelete) :
    UniquePtr DefaultDelete × UniquePtr DefaultDelete :=
  let d := DefaultDelete.convertFrom o.get_deleter
  let r := o.release
  ({ deleter := d, m_ptr := r.1 }, r.2.1)

/-- Move assignment `operator=(UniquePtr&& o)`, src/unnamed/part_001
lines 96-104, run on a store of objects indexed by identity (`i` is `this`,
`j` is `&o`): `if (this != &o) { reset(); m_ptr = o.m_ptr;
get_deleter() = rad::Move(o.get_deleter()); o.m_ptr = nullptr; }`. -/
def moveAssignAt {D : Type} (invoke : D → Nat → List Event)
    (σ : Nat → UniquePtr D) (i j : Nat) :
    (Nat → UniquePtr D) × List Event :=
  if i = j then (σ, [])
  else
    let u := σ i
    let o := σ j
    let tr := match u.m_ptr with
      | some a => invoke u.deleter a
      | none => []
    (fun k =>
      if k = i then { deleter := o.deleter, m_ptr := o.m_ptr }
      else if k = j then { deleter := o.deleter, m_ptr := none }
      else σ k, tr)

/-- `UniquePtr::swap(UniquePtr& o)`, src/unnamed/part_001 lines 137-141:
`Swap(m_ptr, o.m_ptr); Swap(get_deleter(), o.get_deleter());`, run on a
store of objects indexed by identity.  Temp-based `Swap` of a field with
itself leaves it unchanged, which is exactly what this definition yields
when `i = j`.  No deleter invocation occurs, so the trace is empty. -/
def swapAt {D : Type} (σ : Nat → UniquePtr D) (i j : Nat) :
    (Nat → UniquePtr D) × List Event :=
  (fun k =>
    if k = i then { deleter := (σ j).deleter, m_ptr := (σ j).m_ptr }
    else if k = j then { deleter := (σ i).deleter, m_ptr := (σ i).m_ptr }
    else σ k, [])

/-- An error signal from the allocator-aware construction helper. -/
inductive MakeErr where
  | allocFailure
  | constructFailure
deriving DecidableEq, Repr

/-- Modelled from the spec: the heap state underlying the allocator-trait
primitives (`radiant/Memory.h` is not part of the sources).  `allocated`
lists the addresses of reserved-but-not-freed storage units; a leak is an
address left in `allocated` with no owner responsible for it. -/
structure Heap where
  allocated : List Nat
  nextAddr : Nat
deriving DecidableEq, Repr

/-- Modelled from the spec: the allocator-trait `Alloc` primitive.  It may
fail (allocation failure, surfaced as an error that propagates); on success
it reserves one fresh storage unit, recording it in the heap. -/
def allocPrim (h : Heap) (allocOk : Bool) : Heap × Except MakeErr Nat :=
  if allocOk then
    ({ allocated := h.nextAddr :: h.allocated, nextAddr := h.nextAddr + 1 },
      Except.ok h.nextAddr)
  else (h, Except.error MakeErr.allocFailure)

/-- `rad::make_unique<T>(args...)`, src/unnamed/part_001 lines 162-172:
`A alloc; T* raw = Traits::Alloc<T>(alloc, 1);
Traits::Construct(alloc, raw, ...); return UniquePtr<T>(raw, D(alloc));`.
`allocOk` is whether the allocator can satisfy the request and
`constructOk` is whether the target's constructor succeeds (it may throw).
Note the source contains no cleanup between `Construct` and the `return`:
when `Construct` fails, the failure propagates with the reserved storage
still recorded in the heap. -/
def make_unique (allocOk constructOk : Bool) (h : Heap) :
    Heap × Except MakeErr (UniquePtr DefaultDelete) :=
  let alloc := defaultStdAllocator
  match allocPrim h allocOk with
  | (h1, Except.error e) => (h1, Except.error e)
  | (h1, Except.ok raw) =>
      if constructOk then
        (h1, Except.ok { deleter := DefaultDelete.ofAllocator alloc,
                         m_ptr := some raw })
      else
        (h1, Except.error MakeErr.constructFailure)

/-- Claim C1 (evaluation at the failing input): starting from the empty heap,
`make_unique` with a successful allocation and a failing target constructor
propagates the construction failure, but the reserved storage unit (address
0) is still recorded as allocated — it was never released through the
allocator, contradicting the claim that the reserved storage is released
before the failure propagates. -/
theorem make_unique_leaks_on_construct_failure :
    (rad.make_unique true false { allocated := [], nextAddr := 0 }).2 =
      Except.error rad.MakeErr.constructFailure ∧
    (rad.make_unique true false { allocated := [], nextAddr := 0 }).1.allocated =
      [0] := by
  constructor <;> rfl

/-- Claim C2 (counterexample): converting-moving a `UniquePtr` whose
`DefaultDelete` holds allocator instance state 5 does NOT transfer that
policy state into the destination — the converting deleter constructor
default-constructs its allocator, so the claim as stated is false. -/
theorem convertingMoveConstruct_drops_allocator_state :
    ¬ ((rad.UniquePtr.convertingMoveConstruct
          { deleter := { allocator := { state := 5 } }, m_ptr := some 7 }).1.deleter
        = { allocator := { state := 5 } }) := by
  decide

/-- Claim C2 (amended): for every converting move of a
`UniquePtr<U, DefaultDelete<U>>` into a `UniquePtr<T, DefaultDelete<T>>`,
the destination ends holding the source's former address (stolen via the
source's own `release`), the source becomes empty with its deleter left
intact, and the destination's policy is a default-constructed
`DefaultDelete` — the source's allocator instance is discarded by the
converting deleter constructor, not transferred. -/
theorem convertingMoveConstruct_spec (o : rad.UniquePtr rad.DefaultDelete) :
    (rad.UniquePtr.convertingMoveConstruct o).1.m_ptr = o.m_ptr ∧
    (rad.UniquePtr.convertingMoveConstruct o).2.m_ptr = none ∧
    (rad.UniquePtr.convertingMoveConstruct o).2.deleter = o.deleter ∧
    (rad.UniquePtr.convertingMoveConstruct o).1.deleter =
      rad.DefaultDelete.defaultCtor := by
  refine ⟨rfl, rfl, rfl, rfl⟩

/-- Claim C3: after move-construction of `b` from `move(a)` (for every owner
`a`, owning or empty), `a` tests false under the boolean observer, `b`'s
held address and policy equal `a`'s pre-move address and policy, and the
trace is empty: no destruction of the owned object occurs during the
transfer. -/
theorem moveConstruct_exclusivity {D : Type} (a : rad.UniquePtr D) :
    (rad.UniquePtr.moveConstruct a).1.m_ptr = a.m_ptr ∧
    (rad.UniquePtr.moveConstruct a).1.deleter = a.deleter ∧
    (rad.UniquePtr.moveConstruct a).2.1.opBool = false ∧
    (rad.UniquePtr.moveConstruct a).2.2 = [] := by
  refine ⟨rfl, rfl, ?_, rfl⟩
  simp [rad.UniquePtr.moveConstruct, rad.UniquePtr.release, rad.UniquePtr.opBool]

/-- Claim C4: self-move assignment (`u = move(u)`, i.e. `this == &o`) is a
safe no-op for every owner: the store is left exactly as it was — same
address, same policy — and the destruction policy is never invoked (empty
trace). -/
theorem moveAssignAt_self_noop {D : Type} (invoke : D → Nat → List rad.Event)
    (σ : Nat → rad.UniquePtr D) (i : Nat) :
    rad.moveAssignAt invoke σ i i = (σ, []) := by
  simp [rad.moveAssignAt]

/-- Claim C5: for every owner `u`, `u.release()` returns the address `u` held
before the call (`none` when empty), leaves `u` testing false, leaves the
policy unchanged, and produces an empty trace — the destruction policy is
never invoked and the owned object, if any, is left intact. -/
theorem release_spec {D : Type} (u : rad.UniquePtr D) :
    (rad.UniquePtr.release u).1 = u.m_ptr ∧
    (rad.UniquePtr.release u).2.1.opBool = false ∧
    (rad.UniquePtr.release u).2.1.deleter = u.deleter ∧
    (rad.UniquePtr.release u).2.2 = [] := by
  refine ⟨rfl, ?_, rfl, rfl⟩
  simp [rad.UniquePtr.release, rad.UniquePtr.opBool]

/-- Claim C6: calling `reset()` with no new address on an owner whose held
address is already null is a true no-op: the deleter is not invoked (empty
trace), the owner is returned unchanged (hence still empty), and repeating
the call changes nothing — `reset()` on an empty owner is idempotent. -/
theorem reset_empty_noop {D : Type} (invoke : D → Nat → List rad.Event)
    (u : rad.UniquePtr D) (h : u.m_ptr = none) :
    rad.UniquePtr.reset invoke none u = (u, []) := by
  cases u with
  | mk d p =>
    cases h
    simp [rad.UniquePtr.reset]

/-- Witness for C6: applying `reset_empty_noop` at the concrete empty owner
with the `DefaultDelete` invoker. -/
theorem reset_empty_noop_witness :
    (({ deleter := rad.DefaultDelete.defaultCtor, m_ptr := none } :
        rad.UniquePtr rad.DefaultDelete)).m_ptr = none ∧
    rad.UniquePtr.reset (fun d a => rad.DefaultDelete.call d (some a)) none
      { deleter := rad.DefaultDelete.defaultCtor, m_ptr := none } =
      ({ deleter := rad.DefaultDelete.defaultCtor, m_ptr := none }, []) :=
  ⟨rfl, reset_empty_noop (fun d a => rad.DefaultDelete.call d (some a)) _ rfl⟩

/-- Claim C7: `x.swap(y)` exchanges the two owners' held addresses and policy
states pairwise and produces an empty trace (neither destruction policy is
invoked, no owned object is destroyed); swapping an owner with itself is a
no-op leaving the whole store in its original state. -/
theorem swapAt_exchanges {D : Type} (σ : Nat → rad.UniquePtr D) (i j : Nat) :
    (rad.swapAt σ i j).1 i = { deleter := (σ j).deleter, m_ptr := (σ j).m_ptr } ∧
    (rad.swapAt σ i j).1 j = { deleter := (σ i).deleter, m_ptr := (σ i).m_ptr } ∧
    (rad.swapAt σ i j).2 = [] ∧
    (rad.swapAt σ i i).1 = σ := by
  refine ⟨?_, ?_, rfl, ?_⟩
  · simp [rad.swapAt]
  · by_cases hij : j = i
    · subst hij; simp [rad.swapAt]
    · simp [rad.swapAt, hij]
  · funext k
    by_cases hk : k = i
    · subst hk; simp [rad.swapAt]
    · simp [rad.swapAt, hk]

/-- Claim C8: invoking `DefaultDelete::operator()` on a non-null address
first destroys the pointee via the allocator-trait `Destroy` primitive and
then releases exactly one unit of storage via the allocator-trait `Free`
primitive, both through the same allocator instance — the one the policy
holds by value as its own state (`get_allocator`). -/
theorem defaultDelete_call_nonnull (d : rad.DefaultDelete) (a : Nat) :
    rad.DefaultDelete.call d (some a) =
      [rad.Event.destroy d.get_allocator.state a,
       rad.Event.free d.get_allocator.state a 1] := rfl

/-- Claim C10: invoking `DefaultDelete::operator()` directly on a null
address is a total no-op — the trace is empty, so neither the
allocator-trait `Destroy` nor `Free` primitive is called. -/
theorem defaultDelete_call_null (d : rad.DefaultDelete) :
    rad.DefaultDelete.call d none = [] := rfl

end rad
